import Mathlib

/-!
# Verification of the `oauth_provider` OAuth2 controller

Shallow embedding of `oauth_provider/controllers/controllers.py` (an Odoo
OAuth2 provider controller) together with the protocol engine it delegates
to (the oauthlib server built by `get_oauth2_server` and the Odoo models
`oauth.provider.client`, `oauth.provider.token`,
`oauth.provider.authorization.code`), which are part of this repository but
not present in the extracted sources; those parts are modelled from the
spec and marked as such in their doc comments.

Time is a `Nat` (seconds); the external random source is modelled by
explicit `fresh` string parameters supplied to the endpoints; the ORM
stores are association lists inside a `Store` record; HTTP responses are a
small inductive `Response`.
-/

/-- A registered OAuth2 client (`oauth.provider.client`).
Modelled from the spec: identifier, optional secret (confidential clients
only), registered redirect URIs, allowed response/grant types, allowed
scope codes, token lifetime, auto-approval flag, display name. -/
structure Client where
  identifier : String
  secret : Option String
  redirect_uris : List String
  response_types : List String
  grant_types : List String
  allowed_scopes : List String
  token_expires_in : Nat
  skip_authorization : Bool
  confidential : Bool
  name : String
deriving DecidableEq, Repr

/-- A scope (`oauth.provider.scope`).
Modelled from the spec: a code plus the (resource model, field) pairs it
authorizes exposure of. -/
structure Scope where
  code : String
  exposed : List (String × String)
deriving DecidableEq, Repr

/-- An authorization code (`oauth.provider.authorization.code`).
Modelled from the spec: opaque single-use value, client and user
references, granted scope codes, redirect URI used, expiry, consumed
flag. -/
structure AuthCode where
  code : String
  clientIdent : String
  userId : Nat
  redirectUri : String
  scopes : List String
  expiresAt : Nat
  consumed : Bool
deriving DecidableEq, Repr

/-- An access token record (`oauth.provider.token`).
Modelled from the spec: opaque value, optional refresh-token value, client
and optional user references, granted scope codes, expiry, revocation
flag. -/
structure Token where
  token : String
  refresh_token : Option String
  clientIdent : String
  userId : Option Nat
  scopes : List String
  expiresAt : Nat
  revoked : Bool
deriving DecidableEq, Repr

/-- A resource-owner account, used by the password grant's external
credential check (modelled from the spec: delegated user authentication). -/
structure UserAccount where
  login : String
  password : String
  uid : Nat
deriving DecidableEq, Repr

/-- A stored resource record: model name, record id, field/value pairs.
Stands for the Odoo records that `get_data_for_model` reads. -/
structure Resource where
  model : String
  resId : Nat
  fields : List (String × String)
deriving DecidableEq, Repr

/-- The persistent state backing the controller: client registry, scope
catalog, code/token store, user accounts, the `ir.model` registry and the
readable resource records. -/
structure Store where
  clients : List Client
  scopes : List Scope
  codes : List AuthCode
  tokens : List Token
  users : List UserAccount
  models : List String
  resources : List Resource
deriving DecidableEq, Repr

/-- The values the controller keeps in the web session across the consent
round-trip (`session['oauth_credentials']`, lines 91-96 of the source):
exactly the client id, redirect_uri, response_type and state, nothing
else. -/
structure OAuthCredentials where
  client_id : String
  redirect_uri : String
  response_type : String
  state : Option String
deriving DecidableEq, Repr

/-- The web session as used by the controller: `session['oauth_scopes']`
(scope codes) and `session['oauth_credentials']`. -/
structure Session where
  oauth_scopes : List String
  oauth_credentials : Option OAuthCredentials
deriving DecidableEq, Repr

/-- An HTTP response as produced by the controller: a JSON body with a
status, a rendered `authorization_error` page, the rendered consent page,
a redirect, a raw body, or an unhandled exception (HTTP 500). -/
inductive Response where
  | json (body : List (String × String)) (status : Nat)
  | errorPage (title : String) (message : String)
  | consent (clientName : String) (scopeCodes : List String)
  | redirect (location : String) (status : Nat)
  | raw (body : String) (status : Nat)
  | serverError
deriving DecidableEq, Repr

/-- HTTP status of a response (rendered pages are served with 200; an
unhandled exception surfaces as 500). -/
def respStatus : Response → Nat
  | .json _ s => s
  | .errorPage _ _ => 200
  | .consent _ _ => 200
  | .redirect _ s => s
  | .raw _ s => s
  | .serverError => 500

/-- The JSON error bodies the controller and engine emit:
`{"error": "<code>"}` with the given status. -/
def stdError (code : String) (status : Nat) : Response :=
  .json [("error", code)] status

/-- Modelled from the spec: bearer-token verification performed by
`oauth2_server.verify_request` / `OdooValidator.validate_bearer_token`
(not under `src/`): a token is valid iff now < expires-at and it is not
revoked. -/
def verifyToken (now : Nat) (t : Token) : Bool :=
  decide (now < t.expiresAt) && !t.revoked

/-- `_check_access_token` (source lines 34-53): look the token value up in
the store; if absent return nothing, otherwise accept it exactly when the
oauth2 server verifies it (`verifyToken`). -/
def checkAccessToken (st : Store) (now : Nat) (access_token : Option String) : Option Token :=
  match st.tokens.find? (fun t => some t.token == access_token) with
  | none => none
  | some t => if verifyToken now t then some t else none

/-- Field names of `model` that the token's granted scopes authorize.
Modelled from the spec: scope catalog mapping scope codes to exposed
fields per resource type. -/
def allowedFields (st : Store) (t : Token) (model : String) : List String :=
  (st.scopes.filter (fun s => t.scopes.contains s.code)).flatMap
    (fun s => (s.exposed.filter (fun p => p.1 == model)).map Prod.snd)

/-- Modelled from the spec: `oauth.provider.token.get_data_for_model`
(not under `src/`): return only the fields of the requested records that
the token's granted scopes authorize for that resource type; an empty
result, not an error, when nothing is authorized. -/
def get_data_for_model (st : Store) (t : Token) (model : String) (resId : Option Nat) :
    List (String × String) :=
  let fields := allowedFields st t model
  let rs := st.resources.filter (fun r =>
    r.model == model && (match resId with | none => true | some i => r.resId == i))
  (rs.flatMap (fun r => r.fields)).filter (fun kv => fields.contains kv.1)

/-- Modelled from the spec: `oauth.provider.token.generate_user_id`, an
opaque identifier derived from the user reference. -/
def generate_user_id (uid : Nat) : String :=
  toString uid

/-- First value bound to a key in an association list, with a default of
`""` (Python's `dict[key]` on the keys the controller has just checked). -/
def lookupField (data : List (String × String)) (key : String) : String :=
  match data.find? (fun kv => kv.1 == key) with
  | none => ""
  | some kv => kv.2

/-- `tokeninfo` (source lines 203-232): 401 `invalid_or_expired_token` when
the token check fails, otherwise audience, scopes, remaining lifetime, and
the user identifiers when the scopes expose the user's `id` field. -/
def tokeninfo (st : Store) (now : Nat) (access_token : Option String) : Response :=
  match checkAccessToken st now access_token with
  | none => stdError "invalid_or_expired_token" 401
  | some t =>
    let token_lifetime : Int := (t.expiresAt : Int) - (now : Int)
    let base := [("audience", t.clientIdent),
                 ("scopes", String.intercalate " " t.scopes),
                 ("expires_in", toString token_lifetime)]
    let user_data := get_data_for_model st t "res.users" (some (t.userId.getD 0))
    if (user_data.find? (fun kv => kv.1 == "id")).isSome then
      .json (base ++ [("user_id", generate_user_id (t.userId.getD 0)),
                      ("name", lookupField user_data "name"),
                      ("email", lookupField user_data "login")]) 200
    else
      .json base 200

/-- The characters before and after the first space, when one exists. -/
def splitAtSpaceAux : List Char → Option (List Char × List Char)
  | [] => none
  | c :: cs =>
    if c = ' ' then some ([], cs)
    else
      match splitAtSpaceAux cs with
      | none => none
      | some p => some (c :: p.1, p.2)

/-- Python's `s.split(' ', 1)` followed by unpacking into two variables:
the text before the first space and everything after it; no space means
the unpacking raises `ValueError`. -/
def splitOnceSpace (s : String) : Option (String × String) :=
  match splitAtSpaceAux s.toList with
  | none => none
  | some p => some (String.mk p.1, String.mk p.2)

/-- `userinfo` (source lines 234-253): read the `Authorization` header
(defaulting to `" "`), split it at the first space, and unless its type is
`Basic` REPLACE the `access_token` query parameter with the remainder of
the header; then check the token and return the scope-filtered user
fields, or 401. A header without a space raises an unhandled
`ValueError`. -/
def userinfo (st : Store) (now : Nat) (authHeader : Option String)
    (access_token : Option String) : Response :=
  let auth := authHeader.getD " "
  match splitOnceSpace auth with
  | none => .serverError
  | some pair =>
    let tok := if pair.1 != "Basic" then some pair.2 else access_token
    match checkAccessToken st now tok with
    | none => stdError "invalid_or_expired_token" 401
    | some t => .json (get_data_for_model st t "res.users" (some (t.userId.getD 0))) 200

/-- `otherinfo` (source lines 255-272): 401 on token failure, 400
`invalid_model` when the requested model is not registered in `ir.model`,
otherwise the scope-filtered fields of that resource type. -/
def otherinfo (st : Store) (now : Nat) (access_token : Option String)
    (model : Option String) : Response :=
  match checkAccessToken st now access_token with
  | none => stdError "invalid_or_expired_token" 401
  | some t =>
    match st.models.find? (fun m => some m == model) with
    | none => stdError "invalid_model" 400
    | some m => .json (get_data_for_model st t m none) 200

/-- `revoke_token` (source lines 274-299): look the supplied value up as an
access-token value first, then as a refresh-token value; on a total miss
respond 401 `invalid_or_expired_token`; otherwise delete the record and
respond 200 with an empty body (`create_revocation_response`, modelled
from the spec: delete/invalidate and respond success). -/
def revoke_token (st : Store) (token : Option String) : Response × Store :=
  match st.tokens.find? (fun t => some t.token == token) with
  | some db => (.raw "" 200, { st with tokens := st.tokens.erase db })
  | none =>
    match st.tokens.find? (fun t => t.refresh_token == token) with
    | some db => (.raw "" 200, { st with tokens := st.tokens.erase db })
    | none => (stdError "invalid_or_expired_token" 401, st)

/-- Space-splitting over a character list (structurally recursive so that
it evaluates by plain reduction); `cur` is the reversed prefix of the
current piece. -/
def splitSpacesAux : List Char → List Char → List String
  | cur, [] => [String.mk cur.reverse]
  | cur, c :: cs =>
    if c = ' ' then String.mk cur.reverse :: splitSpacesAux [] cs
    else splitSpacesAux (c :: cur) cs

/-- Scope parameter parsing: a space-separated list of scope codes, empty
when the parameter is absent or empty. -/
def parseScope (scope : Option String) : List String :=
  match scope with
  | none => []
  | some s => if s == "" then [] else splitSpacesAux [] s.toList

/-- Outcome of `validate_authorization_request`: a fatal client error
(unsafe to redirect), a non-fatal protocol error, or success with the
granted scope codes and the primitive credential fields. -/
inductive ValidationResult where
  | fatal (error : String) (description : String)
  | protoErr (error : String)
  | ok (scopes : List String) (creds : OAuthCredentials)
deriving DecidableEq, Repr

/-- The query parameters of `GET /oauth2/authorize`. -/
structure AuthRequest where
  client_id : Option String
  response_type : Option String
  redirect_uri : Option String
  scope : Option String
  state : Option String
deriving DecidableEq, Repr

/-- The requested scopes filtered to the client's allowed set (spec step
4: drop disallowed scopes silently). -/
def grantedScopes (client : Client) (req : AuthRequest) : List String :=
  (parseScope req.scope).filter (fun s => client.allowed_scopes.contains s)

/-- Modelled from the spec: the redirect-URI check of the validator (not
under `src/`): a supplied redirect_uri is kept only when it exactly
matches a registered one; an absent one falls back to the client's sole
registered URI. -/
def verifiedRedirectUri (client : Client) (req : AuthRequest) : Option String :=
  match req.redirect_uri with
  | some u => if client.redirect_uris.contains u then some u else none
  | none => match client.redirect_uris with
            | [u] => some u
            | _ => none

/-- Modelled from the spec:
`oauth2_server.validate_authorization_request` / `OdooValidator` (not
under `src/`). A supplied redirect_uri must exactly match a registered
one, else fatal; an absent redirect_uri falls back to the client's sole
registered URI, else fatal; an unsupported or disallowed response_type is
a protocol error; requested scopes are filtered to the client's allowed
set, an empty intersection being `invalid_scope`. -/
def validate_authorization_request (client : Client) (req : AuthRequest) : ValidationResult :=
  match verifiedRedirectUri client req with
  | none => .fatal "invalid_request" "Mismatching redirect URI"
  | some uri =>
    match req.response_type with
    | none => .protoErr "invalid_request"
    | some rt =>
      if client.response_types.contains rt then
        if (grantedScopes client req).isEmpty then .protoErr "invalid_scope"
        else .ok (grantedScopes client req)
               { client_id := client.identifier, redirect_uri := uri,
                 response_type := rt, state := req.state }
      else .protoErr "unsupported_response_type"

/-- `authorize_post` (source lines 123-146): look the client up from the
session's `oauth_credentials`; unknown client renders the error page;
otherwise `create_authorization_response` (modelled from the spec: create
a fresh short-lived authorization code bound to the logged-in user and the
session's scopes, and redirect to the verified redirect_uri with `code`
and, when present, `state`). -/
def authorize_post (st : Store) (sess : Session) (now uid : Nat) (fresh : String) :
    Response × Store :=
  match sess.oauth_credentials with
  | none => (.errorPage "Unknown Client Identifier!" "This client identifier is invalid.", st)
  | some creds =>
    match st.clients.find? (fun c => c.identifier == creds.client_id) with
    | none => (.errorPage "Unknown Client Identifier!" "This client identifier is invalid.", st)
    | some client =>
      let location := creds.redirect_uri ++
        ("?code=" ++ fresh ++ (match creds.state with | some s => "&state=" ++ s | none => ""))
      let newCode : AuthCode :=
        { code := fresh, clientIdent := client.identifier, userId := uid,
          redirectUri := creds.redirect_uri, scopes := sess.oauth_scopes,
          expiresAt := now + 600, consumed := false }
      (.redirect location 302, { st with codes := newCode :: st.codes })

/-- `authorize` (source lines 63-121): unknown client renders the error
page; a fatal validation error renders the error title and description; a
non-fatal protocol error renders the generic administrator message; on
success the session receives the scope codes and the primitive credential
fields, then either the consent-approval path runs at once
(`skip_authorization`) or the consent page is rendered with the client's
matching scopes. -/
def authorize (st : Store) (sess : Session) (now uid : Nat) (fresh : String)
    (req : AuthRequest) : Response × Session × Store :=
  match st.clients.find? (fun c => some c.identifier == req.client_id) with
  | none => (.errorPage "Unknown Client Identifier!" "This client identifier is invalid.",
             sess, st)
  | some client =>
    match validate_authorization_request client req with
    | .fatal e d => (.errorPage ("Error: " ++ e) d, sess, st)
    | .protoErr e =>
      (.errorPage ("Error: " ++ e)
        "An unknown error occured! Please contact your administrator", sess, st)
    | .ok scopes creds =>
      let sess1 : Session := { oauth_scopes := scopes, oauth_credentials := some creds }
      if client.skip_authorization then
        let out := authorize_post st sess1 now uid fresh
        (out.1, sess1, out.2)
      else
        (.consent client.name (client.allowed_scopes.filter (fun c => scopes.contains c)),
         sess1, st)

/-- The form parameters of `POST /oauth2/token`. -/
structure TokenRequest where
  client_id : Option String
  client_secret : Option String
  redirect_uri : Option String
  scope : Option String
  code : Option String
  grant_type : Option String
  username : Option String
  password : Option String
  refresh_token : Option String
deriving DecidableEq, Repr

/-- The grant types the oauthlib server is configured with. -/
def supportedGrantTypes : List String :=
  ["authorization_code", "refresh_token", "client_credentials", "password"]

/-- Modelled from the spec: client authentication inside the grant engine
(not under `src/`): a confidential client must present its exact secret; a
public client (no secret on record) needs none. -/
def authenticateClient (client : Client) (req : TokenRequest) : Bool :=
  match client.secret with
  | none => true
  | some s => req.client_secret == some s

/-- The JSON token body of a successful grant. -/
def tokenSuccess (freshT freshR : String) (expires_in : Nat) (scopes : List String) :
    Response :=
  .json [("access_token", freshT), ("token_type", "Bearer"),
         ("expires_in", toString expires_in), ("refresh_token", freshR),
         ("scope", String.intercalate " " scopes)] 200

/-- Modelled from the spec: the authorization_code grant (oauthlib grant
engine, not under `src/`): look the code up by value; `invalid_grant` when
absent, already consumed, expired, bound to another client, or presented
with a mismatching redirect_uri; otherwise mark every record carrying that
code value consumed and issue an access/refresh token pair bound to the
code's user and scopes. -/
def exchangeCode (st : Store) (now : Nat) (client : Client) (freshT freshR : String)
    (req : TokenRequest) : Response × Store :=
  match req.code with
  | none => (stdError "invalid_request" 400, st)
  | some c =>
    match st.codes.find? (fun ac => ac.code == c) with
    | none => (stdError "invalid_grant" 400, st)
    | some ac =>
      if ac.consumed then (stdError "invalid_grant" 400, st)
      else if decide (ac.expiresAt ≤ now) then (stdError "invalid_grant" 400, st)
      else if ac.clientIdent != client.identifier then (stdError "invalid_grant" 400, st)
      else if req.redirect_uri != some ac.redirectUri then (stdError "invalid_grant" 400, st)
      else
        let tok : Token :=
          { token := freshT, refresh_token := some freshR, clientIdent := client.identifier,
            userId := some ac.userId, scopes := ac.scopes,
            expiresAt := now + client.token_expires_in, revoked := false }
        (tokenSuccess freshT freshR client.token_expires_in ac.scopes,
         { st with
             codes := st.codes.map (fun x => if x.code == c then { x with consumed := true } else x),
             tokens := tok :: st.tokens })

/-- The scope set of a refreshed token: the requested narrowing, or the
original grant's scopes when no narrowing is requested. -/
def refreshScopes (orig : List String) (scope : Option String) : List String :=
  if (parseScope scope).isEmpty then orig else parseScope scope

/-- Modelled from the spec: the refresh_token grant (not under `src/`):
look the token up by refresh value; `invalid_grant` when absent, revoked
or bound to another client; a requested scope not a subset of the original
grant is `invalid_scope`; otherwise rotate: revoke the previous token and
issue a fresh pair. -/
def refreshGrant (st : Store) (now : Nat) (client : Client) (freshT freshR : String)
    (req : TokenRequest) : Response × Store :=
  match req.refresh_token with
  | none => (stdError "invalid_request" 400, st)
  | some rt =>
    match st.tokens.find? (fun t => t.refresh_token == some rt) with
    | none => (stdError "invalid_grant" 400, st)
    | some t =>
      if t.revoked then (stdError "invalid_grant" 400, st)
      else if t.clientIdent != client.identifier then (stdError "invalid_grant" 400, st)
      else if !((refreshScopes t.scopes req.scope).all (fun s => t.scopes.contains s)) then
        (stdError "invalid_scope" 400, st)
      else
        let tok : Token :=
          { token := freshT, refresh_token := some freshR,
            clientIdent := client.identifier, userId := t.userId,
            scopes := refreshScopes t.scopes req.scope,
            expiresAt := now + client.token_expires_in, revoked := false }
        (tokenSuccess freshT freshR client.token_expires_in (refreshScopes t.scopes req.scope),
         { st with tokens := tok ::
             st.tokens.map (fun x => if x.token == t.token then { x with revoked := true } else x) })

/-- Modelled from the spec: the client_credentials grant (not under
`src/`): confidential clients only (`unauthorized_client` otherwise); the
issued token carries no user reference. -/
def clientCredentialsGrant (st : Store) (now : Nat) (client : Client)
    (freshT freshR : String) (req : TokenRequest) : Response × Store :=
  if !client.confidential then (stdError "unauthorized_client" 400, st)
  else
    let scopes := (parseScope req.scope).filter (fun s => client.allowed_scopes.contains s)
    let tok : Token :=
      { token := freshT, refresh_token := some freshR, clientIdent := client.identifier,
        userId := none, scopes := scopes, expiresAt := now + client.token_expires_in,
        revoked := false }
    (tokenSuccess freshT freshR client.token_expires_in scopes,
     { st with tokens := tok :: st.tokens })

/-- Modelled from the spec: the password grant (not under `src/`):
delegate the credential check to the user store; on success the token is
bound to the verified user id, otherwise `invalid_grant`. -/
def passwordGrant (st : Store) (now : Nat) (client : Client) (freshT freshR : String)
    (req : TokenRequest) : Response × Store :=
  match req.username, req.password with
  | some u, some p =>
    (match st.users.find? (fun usr => usr.login == u && usr.password == p) with
     | none => (stdError "invalid_grant" 400, st)
     | some usr =>
       let scopes := (parseScope req.scope).filter (fun s => client.allowed_scopes.contains s)
       let tok : Token :=
         { token := freshT, refresh_token := some freshR, clientIdent := client.identifier,
           userId := some usr.uid, scopes := scopes,
           expiresAt := now + client.token_expires_in, revoked := false }
       (tokenSuccess freshT freshR client.token_expires_in scopes,
        { st with tokens := tok :: st.tokens }))
  | _, _ => (stdError "invalid_request" 400, st)

/-- Modelled from the spec: `oauth2_server.create_token_response` (the
oauthlib grant engine, not under `src/`): authenticate the client, reject
unknown grant types with `unsupported_grant_type` and disallowed ones with
`unauthorized_client`, then dispatch to the grant's state machine; every
failure is a structured JSON error with HTTP 400 or 401. -/
def createTokenResponse (st : Store) (now : Nat) (client : Client) (freshT freshR : String)
    (req : TokenRequest) : Response × Store :=
  if !(authenticateClient client req) then (stdError "invalid_client" 401, st)
  else
    match req.grant_type with
    | none => (stdError "invalid_request" 400, st)
    | some gt =>
      if !(supportedGrantTypes.contains gt) then (stdError "unsupported_grant_type" 400, st)
      else if !(client.grant_types.contains gt) then (stdError "unauthorized_client" 400, st)
      else if gt == "authorization_code" then exchangeCode st now client freshT freshR req
      else if gt == "refresh_token" then refreshGrant st now client freshT freshR req
      else if gt == "client_credentials" then
        clientCredentialsGrant st now client freshT freshR req
      else passwordGrant st now client freshT freshR req

/-- The client identifier the token endpoint works with: the `client_id`
parameter, or, when absent, the one stored in the session's
`oauth_credentials` (source lines 167-170). -/
def effectiveClientId (sess : Session) (req : TokenRequest) : Option String :=
  match req.client_id with
  | some c => some c
  | none => sess.oauth_credentials.map OAuthCredentials.client_id

/-- `token` (source lines 157-201): resolve the client identifier from the
parameter or the session, answer 401 `invalid_client_id` when no
registered client matches, and otherwise run the grant engine
(`createTokenResponse`). -/
def tokenEndpoint (st : Store) (sess : Session) (now : Nat) (freshT freshR : String)
    (req : TokenRequest) : Response × Store :=
  match st.clients.find? (fun c => some c.identifier == effectiveClientId sess req) with
  | none => (stdError "invalid_client_id" 401, st)
  | some client => createTokenResponse st now client freshT freshR req

/-- One call to the token endpoint: its session, clock reading, fresh
token material and form parameters. -/
structure TokenCall where
  sess : Session
  now : Nat
  freshT : String
  freshR : String
  req : TokenRequest
deriving DecidableEq, Repr

/-- The store after a sequence of token-endpoint calls. -/
def runTokenCalls (st : Store) (calls : List TokenCall) : Store :=
  List.foldl (fun s c => (tokenEndpoint s c.sess c.now c.freshT c.freshR c.req).2) st calls

/-! ## Concrete fixtures used by the witnesses below -/

/-- A registered confidential client used in the concrete scenarios. -/
def exClient : Client :=
  { identifier := "app1", secret := some "s3cr3t", redirect_uris := ["https://app1/cb"],
    response_types := ["code"], grant_types := ["authorization_code", "refresh_token"],
    allowed_scopes := ["profile"], token_expires_in := 3600, skip_authorization := false,
    confidential := true, name := "App One" }

/-- The `profile` scope exposing three `res.users` fields. -/
def exScope : Scope :=
  ⟨"profile", [("res.users", "id"), ("res.users", "name"), ("res.users", "login")]⟩

/-- A fresh, unconsumed authorization code for `exClient` and user 7. -/
def exCode : AuthCode :=
  { code := "codeA", clientIdent := "app1", userId := 7, redirectUri := "https://app1/cb",
    scopes := ["profile"], expiresAt := 600, consumed := false }

/-- The stored record of user 7. -/
def exUserRecord : Resource :=
  ⟨"res.users", 7, [("id", "7"), ("name", "Alice"), ("login", "alice@x")]⟩

/-- Base store: one client, one scope, one pending code, no token yet. -/
def exStore : Store :=
  { clients := [exClient], scopes := [exScope], codes := [exCode], tokens := [],
    users := [], models := ["res.users"], resources := [exUserRecord] }

/-- An empty session. -/
def exSession : Session := { oauth_scopes := [], oauth_credentials := none }

/-- A well-formed authorization_code exchange request for `exCode`. -/
def exTokenReq : TokenRequest :=
  { client_id := some "app1", client_secret := some "s3cr3t",
    redirect_uri := some "https://app1/cb", scope := none, code := some "codeA",
    grant_type := some "authorization_code", username := none, password := none,
    refresh_token := none }

/-- The store after the successful exchange of `exCode` at time 0. -/
def exStoreAfter : Store := (tokenEndpoint exStore exSession 0 "tokA" "refA" exTokenReq).2

/-- An expired token (expiry 10, observed at time 100). -/
def exExpiredToken : Token :=
  { token := "tokX", refresh_token := some "refX", clientIdent := "app1",
    userId := some 7, scopes := ["profile"], expiresAt := 10, revoked := false }

/-- A store holding only the expired token. -/
def exStoreExpired : Store :=
  { clients := [exClient], scopes := [exScope], codes := [], tokens := [exExpiredToken],
    users := [], models := ["res.users"], resources := [exUserRecord] }

/-! ## Helper lemmas -/

/-- An expired token never passes bearer verification, whatever its
revocation flag. -/
theorem verifyToken_expired (now : Nat) (t : Token) (h : t.expiresAt ≤ now) :
    verifyToken now t = false := by
  have hnl : ¬ now < t.expiresAt := Nat.not_lt.mpr h
  simp [verifyToken, hnl]

/-! ## Claim theorems -/

/-- C2: a stored token whose expiry timestamp is in the past is never
reported valid by `_check_access_token`, regardless of its revocation
status, and `tokeninfo` answers 401 with body
`{"error": "invalid_or_expired_token"}` for it. -/
theorem tokeninfo_expired_token_rejected (st : Store) (now : Nat) (v : String) (t : Token)
    (hfind : st.tokens.find? (fun x => some x.token == some v) = some t)
    (hexp : t.expiresAt ≤ now) :
    checkAccessToken st now (some v) = none ∧
    tokeninfo st now (some v) = Response.json [("error", "invalid_or_expired_token")] 401 := by
  have hv := verifyToken_expired now t hexp
  have hfind1 : st.tokens.find? (fun x => x.token == v) = some t := by simpa using hfind
  constructor
  · simp [checkAccessToken, hfind1, hv]
  · simp [tokeninfo, checkAccessToken, hfind1, hv, stdError]

/-- Witness for C2: the concrete expired token `tokX` at time 100. -/
theorem tokeninfo_expired_token_rejected_witness :
    (exStoreExpired.tokens.find? (fun x => some x.token == some "tokX") = some exExpiredToken ∧
     exExpiredToken.expiresAt ≤ 100) ∧
    checkAccessToken exStoreExpired 100 (some "tokX") = none ∧
    tokeninfo exStoreExpired 100 (some "tokX") =
      Response.json [("error", "invalid_or_expired_token")] 401 :=
  ⟨⟨by decide, by decide⟩,
   tokeninfo_expired_token_rejected exStoreExpired 100 "tokX" exExpiredToken (by decide)
     (by decide)⟩

/-- C4: `revoke_token` looks the value up as an access-token value first,
then as a refresh-token value; a total miss answers 401 with body
`{"error": "invalid_or_expired_token"}` (and, the function being total, no
exception is thrown); either hit revokes that record and answers 200. -/
theorem revoke_token_lookup_order (st : Store) (tok : Option String) :
    (st.tokens.find? (fun t => some t.token == tok) = none →
     st.tokens.find? (fun t => t.refresh_token == tok) = none →
     revoke_token st tok = (Response.json [("error", "invalid_or_expired_token")] 401, st)) ∧
    (∀ t, st.tokens.find? (fun t0 => some t0.token == tok) = some t →
     revoke_token st tok = (Response.raw "" 200, { st with tokens := st.tokens.erase t })) ∧
    (∀ t, st.tokens.find? (fun t0 => some t0.token == tok) = none →
     st.tokens.find? (fun t0 => t0.refresh_token == tok) = some t →
     revoke_token st tok = (Response.raw "" 200, { st with tokens := st.tokens.erase t })) := by
  refine ⟨fun h1 h2 => ?_, fun t h1 => ?_, fun t h1 h2 => ?_⟩ <;>
    simp [revoke_token, h1, stdError] <;> simp [h2]

/-- Witness for C4: revoking the absent value `nope` on the base store, and
revoking the stored refresh value `refX` on the expired-token store. -/
theorem revoke_token_lookup_order_witness :
    revoke_token exStore (some "nope") =
      (Response.json [("error", "invalid_or_expired_token")] 401, exStore) ∧
    revoke_token exStoreExpired (some "refX") =
      (Response.raw "" 200,
       { exStoreExpired with tokens := exStoreExpired.tokens.erase exExpiredToken }) :=
  ⟨(revoke_token_lookup_order exStore (some "nope")).1 (by decide) (by decide),
   (revoke_token_lookup_order exStoreExpired (some "refX")).2.2 exExpiredToken (by decide)
     (by decide)⟩

/-- The issued access token as stored by the exchange of `exCode`. -/
def exIssuedToken : Token :=
  { token := "tokA", refresh_token := some "refA", clientIdent := "app1",
    userId := some 7, scopes := ["profile"], expiresAt := 3600, revoked := false }

/-- C9: on a request carrying a valid access token, `otherinfo` answers
400 with the JSON body `{"error": "invalid_model"}` when the requested
model is not registered, and otherwise answers 200 with the fields of that
resource type, every one of which is authorized by the token's scopes. -/
theorem otherinfo_model_dispatch (st : Store) (now : Nat) (v m : Option String) (t : Token)
    (hok : checkAccessToken st now v = some t) :
    (st.models.find? (fun x => some x == m) = none →
      otherinfo st now v m = Response.json [("error", "invalid_model")] 400) ∧
    (∀ name0, st.models.find? (fun x => some x == m) = some name0 →
      otherinfo st now v m = Response.json (get_data_for_model st t name0 none) 200 ∧
      ∀ kv ∈ get_data_for_model st t name0 none, kv.1 ∈ allowedFields st t name0) := by
  constructor
  · intro h
    simp [otherinfo, hok, h, stdError]
  · intro name0 h
    refine ⟨by simp [otherinfo, hok, h], fun kv hkv => ?_⟩
    unfold get_data_for_model at hkv
    simp only [List.mem_filter] at hkv
    simpa using hkv.2

/-- Witness for C9: the valid token `tokA` with an unknown model
`res.partner` and the known model `res.users`. -/
theorem otherinfo_model_dispatch_witness :
    checkAccessToken exStoreAfter 1 (some "tokA") = some exIssuedToken ∧
    otherinfo exStoreAfter 1 (some "tokA") (some "res.partner") =
      Response.json [("error", "invalid_model")] 400 ∧
    otherinfo exStoreAfter 1 (some "tokA") (some "res.users") =
      Response.json (get_data_for_model exStoreAfter exIssuedToken "res.users" none) 200 :=
  ⟨by decide,
   (otherinfo_model_dispatch exStoreAfter 1 (some "tokA") (some "res.partner") exIssuedToken
      (by decide)).1 (by decide),
   ((otherinfo_model_dispatch exStoreAfter 1 (some "tokA") (some "res.users") exIssuedToken
      (by decide)).2 "res.users" (by decide)).1⟩

/-- The six structured failure codes the grant engine emits. -/
def grantErrorCodes : List String :=
  ["invalid_request", "invalid_client", "invalid_grant", "unauthorized_client",
   "unsupported_grant_type", "invalid_scope"]

/-- Every outcome of the authorization_code grant is a 200 success or a
structured JSON error at 400/401. -/
theorem exchangeCode_shape (st : Store) (now : Nat) (cl : Client) (fT fR : String)
    (req : TokenRequest) :
    respStatus (exchangeCode st now cl fT fR req).1 = 200 ∨
    ∃ code s, (exchangeCode st now cl fT fR req).1 = Response.json [("error", code)] s ∧
      (s = 400 ∨ s = 401) ∧ code ∈ grantErrorCodes := by
  unfold exchangeCode
  repeat' split
  all_goals first
    | exact Or.inl rfl
    | exact Or.inr ⟨_, _, rfl, by simp, by simp [grantErrorCodes]⟩

/-- Every outcome of the refresh_token grant is a 200 success or a
structured JSON error at 400/401. -/
theorem refreshGrant_shape (st : Store) (now : Nat) (cl : Client) (fT fR : String)
    (req : TokenRequest) :
    respStatus (refreshGrant st now cl fT fR req).1 = 200 ∨
    ∃ code s, (refreshGrant st now cl fT fR req).1 = Response.json [("error", code)] s ∧
      (s = 400 ∨ s = 401) ∧ code ∈ grantErrorCodes := by
  unfold refreshGrant
  repeat' split
  all_goals first
    | exact Or.inl rfl
    | exact Or.inr ⟨_, _, rfl, by simp, by simp [grantErrorCodes]⟩

/-- Every outcome of the client_credentials grant is a 200 success or a
structured JSON error at 400/401. -/
theorem clientCredentialsGrant_shape (st : Store) (now : Nat) (cl : Client) (fT fR : String)
    (req : TokenRequest) :
    respStatus (clientCredentialsGrant st now cl fT fR req).1 = 200 ∨
    ∃ code s, (clientCredentialsGrant st now cl fT fR req).1 = Response.json [("error", code)] s ∧
      (s = 400 ∨ s = 401) ∧ code ∈ grantErrorCodes := by
  unfold clientCredentialsGrant
  repeat' split
  all_goals first
    | exact Or.inl rfl
    | exact Or.inr ⟨_, _, rfl, by simp, by simp [grantErrorCodes]⟩

/-- Every outcome of the password grant is a 200 success or a structured
JSON error at 400/401. -/
theorem passwordGrant_shape (st : Store) (now : Nat) (cl : Client) (fT fR : String)
    (req : TokenRequest) :
    respStatus (passwordGrant st now cl fT fR req).1 = 200 ∨
    ∃ code s, (passwordGrant st now cl fT fR req).1 = Response.json [("error", code)] s ∧
      (s = 400 ∨ s = 401) ∧ code ∈ grantErrorCodes := by
  unfold passwordGrant
  repeat' split
  all_goals first
    | exact Or.inl rfl
    | exact Or.inr ⟨_, _, rfl, by simp, by simp [grantErrorCodes]⟩

/-- Every outcome of the grant engine is a 200 success or a structured
JSON error at 400/401 with one of the six standard codes. -/
theorem createTokenResponse_shape (st : Store) (now : Nat) (cl : Client) (fT fR : String)
    (req : TokenRequest) :
    respStatus (createTokenResponse st now cl fT fR req).1 = 200 ∨
    ∃ code s, (createTokenResponse st now cl fT fR req).1 = Response.json [("error", code)] s ∧
      (s = 400 ∨ s = 401) ∧ code ∈ grantErrorCodes := by
  unfold createTokenResponse
  repeat' split
  all_goals first
    | exact Or.inr ⟨_, _, rfl, by simp, by simp [grantErrorCodes]⟩
    | exact exchangeCode_shape st now cl fT fR req
    | exact refreshGrant_shape st now cl fT fR req
    | exact clientCredentialsGrant_shape st now cl fT fR req
    | exact passwordGrant_shape st now cl fT fR req

/-- The grant engine never emits the controller's nonstandard
`invalid_client_id` body. -/
theorem createTokenResponse_not_invalid_client_id (st : Store) (now : Nat) (cl : Client)
    (fT fR : String) (req : TokenRequest) :
    (createTokenResponse st now cl fT fR req).1 ≠
      Response.json [("error", "invalid_client_id")] 401 := by
  intro habs
  rcases createTokenResponse_shape st now cl fT fR req with h200 | ⟨code, s, heq, _, hmem⟩
  · rw [habs] at h200
    simp [respStatus] at h200
  · rw [habs] at heq
    have hcode : code = "invalid_client_id" := by
      have := congrArg (fun r => match r with | Response.json b _ => b | _ => []) heq
      simpa using this.symm
    subst hcode
    revert hmem
    decide

/-- C10: when the `client_id` form parameter is omitted, the token
endpoint falls back to the client id stored in the session's
`oauth_credentials`, and the 401 `invalid_client_id` answer occurs exactly
when that fallback yields no registered client either. -/
theorem token_client_id_session_fallback (st : Store) (sess : Session) (now : Nat)
    (freshT freshR : String) (req : TokenRequest) (hnone : req.client_id = none) :
    effectiveClientId sess req = sess.oauth_credentials.map OAuthCredentials.client_id ∧
    ((tokenEndpoint st sess now freshT freshR req).1 =
        Response.json [("error", "invalid_client_id")] 401 ↔
      st.clients.find? (fun c =>
        some c.identifier == sess.oauth_credentials.map OAuthCredentials.client_id) = none) := by
  have heff : effectiveClientId sess req =
      sess.oauth_credentials.map OAuthCredentials.client_id := by
    simp [effectiveClientId, hnone]
  refine ⟨heff, ?_⟩
  unfold tokenEndpoint
  rw [heff]
  cases hfind : st.clients.find? (fun c =>
      some c.identifier == sess.oauth_credentials.map OAuthCredentials.client_id) with
  | none => simp [stdError]
  | some cl =>
    simp only [reduceCtorEq, iff_false]
    exact createTokenResponse_not_invalid_client_id st now cl freshT freshR req

/-- A session left by a prior authorization request of `app1`. -/
def exSessApp1 : Session :=
  { oauth_scopes := ["profile"],
    oauth_credentials := some ⟨"app1", "https://app1/cb", "code", none⟩ }

/-- The exchange request with the `client_id` parameter omitted. -/
def exTokenReqNoClient : TokenRequest := { exTokenReq with client_id := none }

/-- Witness for C10: with no `client_id` parameter, the session holding
`app1` resolves the registered client, whereas the empty session yields
the 401 `invalid_client_id` answer. -/
theorem token_client_id_session_fallback_witness :
    exTokenReqNoClient.client_id = none ∧
    effectiveClientId exSessApp1 exTokenReqNoClient = some "app1" ∧
    ¬((tokenEndpoint exStore exSessApp1 0 "t" "r" exTokenReqNoClient).1 =
        Response.json [("error", "invalid_client_id")] 401) ∧
    (tokenEndpoint exStore exSession 0 "t" "r" exTokenReqNoClient).1 =
      Response.json [("error", "invalid_client_id")] 401 :=
  ⟨rfl,
   (token_client_id_session_fallback exStore exSessApp1 0 "t" "r" exTokenReqNoClient rfl).1,
   fun habs =>
     (by decide :
       ¬(exStore.clients.find? (fun c => some c.identifier ==
           exSessApp1.oauth_credentials.map OAuthCredentials.client_id) = none))
       ((token_client_id_session_fallback exStore exSessApp1 0 "t" "r"
          exTokenReqNoClient rfl).2.mp habs),
   ((token_client_id_session_fallback exStore exSession 0 "t" "r"
      exTokenReqNoClient rfl).2.mpr (by decide))⟩

/-- C5 counterexample: with no matching registered client, the token
endpoint answers with the nonstandard code `invalid_client_id`, which is
not one of the six structured codes the claim lists. -/
theorem token_unknown_client_nonstandard_code :
    (tokenEndpoint exStore exSession 0 "t" "r"
        { exTokenReq with client_id := some "ghost" }).1 =
      Response.json [("error", "invalid_client_id")] 401 ∧
    "invalid_client_id" ∉ grantErrorCodes := by
  constructor
  · decide
  · decide

/-- C5 (amended): every failing `POST /oauth2/token` request is answered
with a structured JSON error body `{"error": code}` at HTTP 400 or 401 —
never 500; the grant engine uses the six standard codes, while an unknown
client identifier is reported with the nonstandard code
`invalid_client_id` at 401. -/
theorem token_errors_structured (st : Store) (sess : Session) (now : Nat)
    (freshT freshR : String) (req : TokenRequest)
    (hfail : respStatus (tokenEndpoint st sess now freshT freshR req).1 ≠ 200) :
    ∃ code s, (tokenEndpoint st sess now freshT freshR req).1 =
        Response.json [("error", code)] s ∧
      (s = 400 ∨ s = 401) ∧ code ∈ grantErrorCodes ++ ["invalid_client_id"] := by
  unfold tokenEndpoint at hfail ⊢
  cases hfind : st.clients.find? (fun c => some c.identifier == effectiveClientId sess req) with
  | none =>
    exact ⟨"invalid_client_id", 401, rfl, Or.inr rfl, by simp [grantErrorCodes]⟩
  | some cl =>
    rw [hfind] at hfail
    rcases createTokenResponse_shape st now cl freshT freshR req with h200 | ⟨code, s, heq, hs, hmem⟩
    · exact absurd h200 hfail
    · exact ⟨code, s, heq, hs, List.mem_append.mpr (Or.inl hmem)⟩

/-- Witness for C5: an unsupported grant type on the registered client
fails with a structured code at 400. -/
theorem token_errors_structured_witness :
    respStatus (tokenEndpoint exStore exSession 0 "t" "r"
        { exTokenReq with grant_type := some "bogus" }).1 ≠ 200 ∧
    ∃ code s, (tokenEndpoint exStore exSession 0 "t" "r"
        { exTokenReq with grant_type := some "bogus" }).1 =
        Response.json [("error", code)] s ∧
      (s = 400 ∨ s = 401) ∧ code ∈ grantErrorCodes ++ ["invalid_client_id"] :=
  ⟨by decide,
   token_errors_structured exStore exSession 0 "t" "r"
     { exTokenReq with grant_type := some "bogus" } (by decide)⟩

/-- A verified redirect URI is always one registered for the client. -/
theorem verifiedRedirectUri_mem (client : Client) (req : AuthRequest) (uri : String)
    (h : verifiedRedirectUri client req = some uri) : uri ∈ client.redirect_uris := by
  unfold verifiedRedirectUri at h
  split at h
  · split at h
    · cases h
      simpa using ‹client.redirect_uris.contains _ = true›
    · cases h
  · split at h
    · cases h
      simp_all
    · cases h

/-- Inversion of a successful authorization-request validation: the
credentials carry the client's identifier, a registered redirect URI, the
request's response_type and state, and only allowed scope codes. -/
theorem validate_ok_inv (client : Client) (req : AuthRequest) (scopes : List String)
    (creds : OAuthCredentials)
    (h : validate_authorization_request client req = .ok scopes creds) :
    creds.client_id = client.identifier ∧
    creds.redirect_uri ∈ client.redirect_uris ∧
    req.response_type = some creds.response_type ∧
    creds.state = req.state ∧
    ∀ s ∈ scopes, s ∈ client.allowed_scopes := by
  unfold validate_authorization_request at h
  split at h
  next => cases h
  next uri hu =>
    split at h
    next => cases h
    next rt hrt =>
      split at h
      · split at h
        · cases h
        · cases h
          refine ⟨rfl, verifiedRedirectUri_mem client req uri hu, hrt, rfl, fun s hs => ?_⟩
          have := (List.mem_filter.mp hs).2
          simpa using this
      · cases h

/-- C8: on a successfully validated authorization request, the session
stores exactly the scope codes and the four primitive credential fields
(client id, redirect_uri, response_type, state) — the stored redirect_uri
is registered for the client, the state is the request's, and every stored
scope is one of the client's allowed codes. -/
theorem authorize_session_primitive_fields (st : Store) (sess : Session) (now uid : Nat)
    (fresh : String) (req : AuthRequest) (cl : Client) (scopes : List String)
    (creds : OAuthCredentials)
    (hfind : st.clients.find? (fun c => some c.identifier == req.client_id) = some cl)
    (hval : validate_authorization_request cl req = .ok scopes creds) :
    (authorize st sess now uid fresh req).2.1 =
      { oauth_scopes := scopes, oauth_credentials := some creds } ∧
    creds.client_id = cl.identifier ∧
    creds.redirect_uri ∈ cl.redirect_uris ∧
    req.response_type = some creds.response_type ∧
    creds.state = req.state ∧
    ∀ s ∈ scopes, s ∈ cl.allowed_scopes := by
  obtain ⟨h1, h2, h3, h4, h5⟩ := validate_ok_inv cl req scopes creds hval
  refine ⟨?_, h1, h2, h3, h4, h5⟩
  unfold authorize
  rw [hfind]
  simp only [hval]
  split <;> rfl

/-- The GET-side authorization request used in the concrete scenarios. -/
def exAuthReq : AuthRequest :=
  { client_id := some "app1", response_type := some "code",
    redirect_uri := some "https://app1/cb", scope := some "profile", state := some "xyz" }

/-- The credentials the validator derives from `exAuthReq`. -/
def exCreds : OAuthCredentials := ⟨"app1", "https://app1/cb", "code", some "xyz"⟩

/-- Witness for C8: validating `exAuthReq` for `exClient` stores exactly
the scope codes and the four primitive fields. -/
theorem authorize_session_primitive_fields_witness :
    (exStore.clients.find? (fun c => some c.identifier == exAuthReq.client_id) = some exClient ∧
     validate_authorization_request exClient exAuthReq =
       ValidationResult.ok ["profile"] exCreds) ∧
    (authorize exStore exSession 0 7 "codeB" exAuthReq).2.1 =
      { oauth_scopes := ["profile"], oauth_credentials := some exCreds } ∧
    "https://app1/cb" ∈ exClient.redirect_uris ∧
    "profile" ∈ exClient.allowed_scopes :=
  ⟨⟨by decide, by decide⟩,
   (authorize_session_primitive_fields exStore exSession 0 7 "codeB" exAuthReq exClient
      ["profile"] exCreds (by decide) (by decide)).1,
   (authorize_session_primitive_fields exStore exSession 0 7 "codeB" exAuthReq exClient
      ["profile"] exCreds (by decide) (by decide)).2.2.1,
   (authorize_session_primitive_fields exStore exSession 0 7 "codeB" exAuthReq exClient
      ["profile"] exCreds (by decide) (by decide)).2.2.2.2.2 "profile" (by simp)⟩

/-- C7: when the validated client carries the `skip_authorization` flag,
`authorize` stores the session and immediately returns the result of the
consent-approval path `authorize_post` with that session, instead of
rendering the consent page. -/
theorem authorize_skip_invokes_consent_approval (st : Store) (sess : Session) (now uid : Nat)
    (fresh : String) (req : AuthRequest) (cl : Client) (scopes : List String)
    (creds : OAuthCredentials)
    (hfind : st.clients.find? (fun c => some c.identifier == req.client_id) = some cl)
    (hval : validate_authorization_request cl req = .ok scopes creds)
    (hskip : cl.skip_authorization = true) :
    authorize st sess now uid fresh req =
      ((authorize_post st { oauth_scopes := scopes, oauth_credentials := some creds }
          now uid fresh).1,
       { oauth_scopes := scopes, oauth_credentials := some creds },
       (authorize_post st { oauth_scopes := scopes, oauth_credentials := some creds }
          now uid fresh).2) := by
  unfold authorize
  rw [hfind]
  simp [hval, hskip]

/-- The trusted client: `exClient` with `skip_authorization` set. -/
def exClientSkip : Client := { exClient with skip_authorization := true }

/-- The base store with the trusted client registered instead. -/
def exStoreSkip : Store := { exStore with clients := [exClientSkip] }

/-- Witness for C7: with the trusted client, `authorize` returns the
consent-approval redirect at once. -/
theorem authorize_skip_invokes_consent_approval_witness :
    (exStoreSkip.clients.find? (fun c => some c.identifier == exAuthReq.client_id) =
       some exClientSkip ∧
     validate_authorization_request exClientSkip exAuthReq =
       ValidationResult.ok ["profile"] exCreds ∧
     exClientSkip.skip_authorization = true) ∧
    authorize exStoreSkip exSession 0 7 "codeB" exAuthReq =
      ((authorize_post exStoreSkip
          { oauth_scopes := ["profile"], oauth_credentials := some exCreds } 0 7 "codeB").1,
       { oauth_scopes := ["profile"], oauth_credentials := some exCreds },
       (authorize_post exStoreSkip
          { oauth_scopes := ["profile"], oauth_credentials := some exCreds } 0 7 "codeB").2) :=
  ⟨⟨by decide, by decide, by decide⟩,
   authorize_skip_invokes_consent_approval exStoreSkip exSession 0 7 "codeB" exAuthReq
     exClientSkip ["profile"] exCreds (by decide) (by decide) (by decide)⟩

/-- C3: an authorization request whose client_id matches no registered
client is answered with the rendered error page, never a redirect; and
whenever the authorization flow does redirect, the target location begins
with a redirect URI registered for the client the request named. -/
theorem authorize_unknown_client_fatal (st : Store) (sess : Session) (now uid : Nat)
    (fresh : String) (req : AuthRequest) :
    (st.clients.find? (fun c => some c.identifier == req.client_id) = none →
      (authorize st sess now uid fresh req).1 =
        Response.errorPage "Unknown Client Identifier!" "This client identifier is invalid.") ∧
    (∀ loc s, (authorize st sess now uid fresh req).1 = Response.redirect loc s →
      ∃ cl, st.clients.find? (fun c => some c.identifier == req.client_id) = some cl ∧
        ∃ u ∈ cl.redirect_uris, ∃ rest, loc = u ++ rest) := by
  constructor
  · intro h
    unfold authorize
    rw [h]
  · intro loc s hred
    unfold authorize at hred
    split at hred
    · cases hred
    next cl hfind =>
      refine ⟨cl, hfind, ?_⟩
      split at hred
      · cases hred
      · cases hred
      next scopes creds hval =>
        dsimp only at hred
        split at hred
        · unfold authorize_post at hred
          dsimp only at hred
          split at hred
          · cases hred
          next cl2 hfind2 =>
            dsimp only at hred
            have hloc := (Response.redirect.injEq _ _ _ _).mp hred
            exact ⟨creds.redirect_uri, (validate_ok_inv cl req scopes creds hval).2.1,
                   _, hloc.1.symm⟩
        · cases hred

/-- Witness for C3: the unknown client `ghost` gets the error page, while
the trusted client's flow redirects to its sole registered URI. -/
theorem authorize_unknown_client_fatal_witness :
    (authorize exStore exSession 0 7 "codeB" { exAuthReq with client_id := some "ghost" }).1 =
      Response.errorPage "Unknown Client Identifier!" "This client identifier is invalid." ∧
    ∃ cl, exStoreSkip.clients.find? (fun c => some c.identifier == exAuthReq.client_id) =
        some cl ∧
      ∃ u ∈ cl.redirect_uris, ∃ rest, "https://app1/cb?code=codeB&state=xyz" = u ++ rest :=
  ⟨(authorize_unknown_client_fatal exStore exSession 0 7 "codeB"
      { exAuthReq with client_id := some "ghost" }).1 (by decide),
   (authorize_unknown_client_fatal exStoreSkip exSession 0 7 "codeB" exAuthReq).2
     "https://app1/cb?code=codeB&state=xyz" 302 (by decide)⟩

/-- C6 (code bug, evaluated at the failing input): `tokA` is a valid
stored token; presenting it through the `Authorization: Bearer` header
returns the scope-filtered user fields, but presenting it only through the
`access_token` query parameter is answered 401, because the controller
overwrites the parameter with the remainder of the defaulted header. -/
theorem userinfo_query_token_ignored :
    checkAccessToken exStoreAfter 1 (some "tokA") = some exIssuedToken ∧
    userinfo exStoreAfter 1 (some "Bearer tokA") none =
      Response.json [("id", "7"), ("name", "Alice"), ("login", "alice@x")] 200 ∧
    userinfo exStoreAfter 1 none (some "tokA") =
      Response.json [("error", "invalid_or_expired_token")] 401 :=
  ⟨by decide, by decide, by decide⟩

/-- Every stored authorization-code record carrying the value `c` is
marked consumed. -/
def codeConsumedEverywhere (c : String) (st : Store) : Prop :=
  ∀ ac ∈ st.codes, ac.code = c → ac.consumed = true

/-- When the request names the authorization_code grant, an authenticated
client allowed that grant is dispatched to `exchangeCode`. -/
theorem createTokenResponse_authcode_run (st : Store) (now : Nat) (cl : Client)
    (fT fR : String) (req : TokenRequest)
    (hgt : req.grant_type = some "authorization_code")
    (hauth : authenticateClient cl req = true)
    (hallow : cl.grant_types.contains "authorization_code" = true) :
    createTokenResponse st now cl fT fR req = exchangeCode st now cl fT fR req := by
  have hallow1 : "authorization_code" ∈ cl.grant_types := by simpa using hallow
  unfold createTokenResponse
  rw [hgt]
  simp [hauth, hallow1, supportedGrantTypes]

/-- When the request names the authorization_code grant, the grant engine
either fails without touching the store or runs `exchangeCode`. -/
theorem createTokenResponse_authcode_cases (st : Store) (now : Nat) (cl : Client)
    (fT fR : String) (req : TokenRequest)
    (hgt : req.grant_type = some "authorization_code") :
    (respStatus (createTokenResponse st now cl fT fR req).1 ≠ 200 ∧
     (createTokenResponse st now cl fT fR req).2 = st) ∨
    createTokenResponse st now cl fT fR req = exchangeCode st now cl fT fR req := by
  by_cases hauth : authenticateClient cl req = true
  · by_cases hallow : cl.grant_types.contains "authorization_code" = true
    · exact Or.inr (createTokenResponse_authcode_run st now cl fT fR req hgt hauth hallow)
    · left
      have hallow1 : "authorization_code" ∉ cl.grant_types := by simpa using hallow
      unfold createTokenResponse
      rw [hgt]
      constructor <;> simp [hauth, hallow1, stdError, respStatus, supportedGrantTypes]
  · left
    unfold createTokenResponse
    constructor <;> simp [hauth, stdError, respStatus]

/-- A successful code exchange presupposes a live (unconsumed, unexpired)
stored code with the presented value, and leaves every record with that
value consumed. -/
theorem exchangeCode_success_inv (st : Store) (now : Nat) (cl : Client) (fT fR : String)
    (req : TokenRequest) (c : String) (hc : req.code = some c)
    (hok : respStatus (exchangeCode st now cl fT fR req).1 = 200) :
    (∃ ac ∈ st.codes, ac.code = c ∧ ac.consumed = false ∧ now < ac.expiresAt) ∧
    codeConsumedEverywhere c (exchangeCode st now cl fT fR req).2 := by
  unfold exchangeCode at hok ⊢
  rw [hc] at hok ⊢
  dsimp only at hok ⊢
  cases hfind : st.codes.find? (fun ac => ac.code == c) with
  | none =>
    rw [hfind] at hok
    simp [stdError, respStatus] at hok
  | some ac =>
    rw [hfind] at hok
    dsimp only at hok ⊢
    have hmem := List.mem_of_find?_eq_some hfind
    have hcode : ac.code = c := by simpa using List.find?_some hfind
    by_cases h1 : ac.consumed = true
    · rw [if_pos h1] at hok
      simp [stdError, respStatus] at hok
    · rw [if_neg h1] at hok ⊢
      by_cases h2 : (decide (ac.expiresAt ≤ now)) = true
      · rw [if_pos h2] at hok
        simp [stdError, respStatus] at hok
      · rw [if_neg h2] at hok ⊢
        by_cases h3 : (ac.clientIdent != cl.identifier) = true
        · rw [if_pos h3] at hok
          simp [stdError, respStatus] at hok
        · rw [if_neg h3] at hok ⊢
          by_cases h4 : (req.redirect_uri != some ac.redirectUri) = true
          · rw [if_pos h4] at hok
            simp [stdError, respStatus] at hok
          · rw [if_neg h4] at hok ⊢
            constructor
            · refine ⟨ac, hmem, hcode, by simpa using h1, ?_⟩
              exact Nat.not_le.mp (by simpa using h2)
            · intro x hx hxc
              dsimp only at hx
              rcases List.mem_map.mp hx with ⟨y, hy, rfl⟩
              by_cases hyc : (y.code == c) = true
              · rw [if_pos hyc]
              · exfalso
                apply hyc
                rw [if_neg hyc] at hxc
                simp [hxc]

/-- When every record with the presented code value is consumed, the
exchange fails with `invalid_grant` and leaves the store unchanged. -/
theorem exchangeCode_consumed_rejected (st : Store) (now : Nat) (cl : Client) (fT fR : String)
    (req : TokenRequest) (c : String) (hc : req.code = some c)
    (hcons : codeConsumedEverywhere c st) :
    exchangeCode st now cl fT fR req = (stdError "invalid_grant" 400, st) := by
  unfold exchangeCode
  rw [hc]
  dsimp only
  cases hfind : st.codes.find? (fun ac => ac.code == c) with
  | none => rfl
  | some ac =>
    have hmem := List.mem_of_find?_eq_some hfind
    have hcode : ac.code = c := by simpa using List.find?_some hfind
    have hcons1 : ac.consumed = true := hcons ac hmem hcode
    simp [hcons1]

/-- A successful authorization_code exchange at the token endpoint
presupposes a live stored code with the presented value and leaves every
record with that value consumed. -/
theorem tokenEndpoint_authcode_success_inv (st : Store) (sess : Session) (now : Nat)
    (fT fR : String) (req : TokenRequest) (c : String)
    (hgt : req.grant_type = some "authorization_code") (hc : req.code = some c)
    (hok : respStatus (tokenEndpoint st sess now fT fR req).1 = 200) :
    (∃ ac ∈ st.codes, ac.code = c ∧ ac.consumed = false ∧ now < ac.expiresAt) ∧
    codeConsumedEverywhere c (tokenEndpoint st sess now fT fR req).2 := by
  unfold tokenEndpoint at hok ⊢
  cases hfind : st.clients.find? (fun k => some k.identifier == effectiveClientId sess req) with
  | none =>
    rw [hfind] at hok
    simp [stdError, respStatus] at hok
  | some cl =>
    rw [hfind] at hok
    dsimp only at hok ⊢
    rcases createTokenResponse_authcode_cases st now cl fT fR req hgt with ⟨hne, _⟩ | heq
    · exact absurd hok hne
    · rw [heq] at hok ⊢
      exact exchangeCode_success_inv st now cl fT fR req c hc hok

/-- Marking records with some code value consumed preserves "everything
with value `c` is consumed". -/
theorem mark_preserves_consumed (c c2 : String) (codes : List AuthCode)
    (h : ∀ ac ∈ codes, ac.code = c → ac.consumed = true) :
    ∀ ac ∈ codes.map (fun x => if x.code == c2 then { x with consumed := true } else x),
      ac.code = c → ac.consumed = true := by
  intro x hx hxc
  rcases List.mem_map.mp hx with ⟨y, hy, rfl⟩
  by_cases hyc : (y.code == c2) = true
  · rw [if_pos hyc]
  · rw [if_neg hyc] at hxc ⊢
    exact h y hy hxc

/-- The refresh_token grant never touches the code store. -/
theorem refreshGrant_codes_eq (st : Store) (now : Nat) (cl : Client) (fT fR : String)
    (req : TokenRequest) : (refreshGrant st now cl fT fR req).2.codes = st.codes := by
  unfold refreshGrant
  repeat' split
  all_goals rfl

/-- The client_credentials grant never touches the code store. -/
theorem clientCredentialsGrant_codes_eq (st : Store) (now : Nat) (cl : Client) (fT fR : String)
    (req : TokenRequest) :
    (clientCredentialsGrant st now cl fT fR req).2.codes = st.codes := by
  unfold clientCredentialsGrant
  repeat' split
  all_goals rfl

/-- The password grant never touches the code store. -/
theorem passwordGrant_codes_eq (st : Store) (now : Nat) (cl : Client) (fT fR : String)
    (req : TokenRequest) : (passwordGrant st now cl fT fR req).2.codes = st.codes := by
  unfold passwordGrant
  repeat' split
  all_goals rfl

/-- The authorization_code grant either leaves the code store unchanged or
marks the records carrying one code value consumed. -/
theorem exchangeCode_codes_shape (st : Store) (now : Nat) (cl : Client) (fT fR : String)
    (req : TokenRequest) :
    (exchangeCode st now cl fT fR req).2.codes = st.codes ∨
    ∃ c2, (exchangeCode st now cl fT fR req).2.codes =
      st.codes.map (fun x => if x.code == c2 then { x with consumed := true } else x) := by
  unfold exchangeCode
  repeat' split
  all_goals first
    | exact Or.inl rfl
    | exact Or.inr ⟨_, rfl⟩

/-- The grant engine either leaves the code store unchanged or marks the
records carrying one code value consumed. -/
theorem createTokenResponse_codes_shape (st : Store) (now : Nat) (cl : Client) (fT fR : String)
    (req : TokenRequest) :
    (createTokenResponse st now cl fT fR req).2.codes = st.codes ∨
    ∃ c2, (createTokenResponse st now cl fT fR req).2.codes =
      st.codes.map (fun x => if x.code == c2 then { x with consumed := true } else x) := by
  unfold createTokenResponse
  repeat' split
  all_goals first
    | exact Or.inl rfl
    | exact exchangeCode_codes_shape st now cl fT fR req
    | exact Or.inl (refreshGrant_codes_eq st now cl fT fR req)
    | exact Or.inl (clientCredentialsGrant_codes_eq st now cl fT fR req)
    | exact Or.inl (passwordGrant_codes_eq st now cl fT fR req)

/-- One token-endpoint call preserves "every record with value `c` is
consumed". -/
theorem consumedEverywhere_preserved (c : String) (st : Store) (sess : Session) (now : Nat)
    (fT fR : String) (req : TokenRequest) (h : codeConsumedEverywhere c st) :
    codeConsumedEverywhere c (tokenEndpoint st sess now fT fR req).2 := by
  unfold tokenEndpoint
  cases hfind : st.clients.find? (fun k => some k.identifier == effectiveClientId sess req) with
  | none => exact h
  | some cl =>
    intro x hx hxc
    replace hx : x ∈ (createTokenResponse st now cl fT fR req).2.codes := hx
    rcases createTokenResponse_codes_shape st now cl fT fR req with heq | ⟨c2, heq⟩
    · rw [heq] at hx
      exact h x hx hxc
    · rw [heq] at hx
      exact mark_preserves_consumed c c2 st.codes h x hx hxc

/-- Any sequence of token-endpoint calls preserves "every record with
value `c` is consumed". -/
theorem consumedEverywhere_run (c : String) (st : Store) (calls : List TokenCall)
    (h : codeConsumedEverywhere c st) :
    codeConsumedEverywhere c (runTokenCalls st calls) := by
  induction calls generalizing st with
  | nil => exact h
  | cons hd tl ih =>
    exact ih _ (consumedEverywhere_preserved c st hd.sess hd.now hd.freshT hd.freshR hd.req h)

/-- C1: once an authorization code has been successfully exchanged at the
token endpoint, every subsequent exchange attempt presenting the same code
value — after any further sequence of token-endpoint calls — fails: it
never yields a 200 token response, and whenever the attempt reaches the
grant engine (registered client, authenticated, grant allowed) it is
answered with `invalid_grant`; moreover a consumed or expired code never
yields a token. -/
theorem token_code_single_use
    (st : Store) (sess : Session) (now : Nat) (freshT freshR : String) (req1 : TokenRequest)
    (c : String) (resp1 : Response) (st1 : Store)
    (h1 : tokenEndpoint st sess now freshT freshR req1 = (resp1, st1))
    (hgt : req1.grant_type = some "authorization_code")
    (hc : req1.code = some c)
    (hok : respStatus resp1 = 200)
    (calls : List TokenCall)
    (sess2 : Session) (now2 : Nat) (fT2 fR2 : String) (req2 : TokenRequest)
    (hgt2 : req2.grant_type = some "authorization_code")
    (hc2 : req2.code = some c) :
    respStatus (tokenEndpoint (runTokenCalls st1 calls) sess2 now2 fT2 fR2 req2).1 ≠ 200 ∧
    (∀ cl, (runTokenCalls st1 calls).clients.find?
        (fun k => some k.identifier == effectiveClientId sess2 req2) = some cl →
      authenticateClient cl req2 = true →
      cl.grant_types.contains "authorization_code" = true →
      (tokenEndpoint (runTokenCalls st1 calls) sess2 now2 fT2 fR2 req2).1 =
        Response.json [("error", "invalid_grant")] 400) ∧
    (∀ st3 sess3 now3 fT3 fR3 req3 c3, req3.grant_type = some "authorization_code" →
      req3.code = some c3 →
      (∀ ac ∈ st3.codes, ac.code = c3 → (ac.consumed = true ∨ ac.expiresAt ≤ now3)) →
      respStatus (tokenEndpoint st3 sess3 now3 fT3 fR3 req3).1 ≠ 200) := by
  have hok1 : respStatus (tokenEndpoint st sess now freshT freshR req1).1 = 200 := by
    rw [h1]
    exact hok
  have hcons1 : codeConsumedEverywhere c st1 := by
    have h := (tokenEndpoint_authcode_success_inv st sess now freshT freshR req1 c
      hgt hc hok1).2
    rw [h1] at h
    exact h
  have hconsN : codeConsumedEverywhere c (runTokenCalls st1 calls) :=
    consumedEverywhere_run c st1 calls hcons1
  refine ⟨?_, ?_, ?_⟩
  · intro habs
    obtain ⟨⟨ac, hmem, hcode, hcf, _⟩, _⟩ :=
      tokenEndpoint_authcode_success_inv (runTokenCalls st1 calls) sess2 now2 fT2 fR2 req2 c
        hgt2 hc2 habs
    have hcons2 := hconsN ac hmem hcode
    rw [hcons2] at hcf
    cases hcf
  · intro cl hfind hauth hallow
    unfold tokenEndpoint
    rw [hfind]
    dsimp only
    rw [createTokenResponse_authcode_run (runTokenCalls st1 calls) now2 cl fT2 fR2 req2
          hgt2 hauth hallow,
        exchangeCode_consumed_rejected (runTokenCalls st1 calls) now2 cl fT2 fR2 req2 c
          hc2 hconsN]
    rfl
  · intro st3 sess3 now3 fT3 fR3 req3 c3 hgt3 hc3 hdead habs
    obtain ⟨⟨ac, hmem, hcode, hcf, hlt⟩, _⟩ :=
      tokenEndpoint_authcode_success_inv st3 sess3 now3 fT3 fR3 req3 c3 hgt3 hc3 habs
    rcases hdead ac hmem hcode with hcons3 | hexp
    · rw [hcons3] at hcf
      cases hcf
    · exact absurd hlt (Nat.not_lt.mpr hexp)

/-- Witness for C1: the concrete exchange of `codeA` succeeds once, and
the immediate retry of the very same request is answered
`invalid_grant`. -/
theorem token_code_single_use_witness :
    respStatus (tokenEndpoint exStore exSession 0 "tokA" "refA" exTokenReq).1 = 200 ∧
    respStatus (tokenEndpoint (runTokenCalls exStoreAfter []) exSession 1 "tokB" "refB"
        exTokenReq).1 ≠ 200 ∧
    (tokenEndpoint (runTokenCalls exStoreAfter []) exSession 1 "tokB" "refB" exTokenReq).1 =
      Response.json [("error", "invalid_grant")] 400 :=
  ⟨by decide,
   (token_code_single_use exStore exSession 0 "tokA" "refA" exTokenReq "codeA"
      (tokenEndpoint exStore exSession 0 "tokA" "refA" exTokenReq).1 exStoreAfter rfl rfl rfl
      (by decide) [] exSession 1 "tokB" "refB" exTokenReq rfl rfl).1,
   (token_code_single_use exStore exSession 0 "tokA" "refA" exTokenReq "codeA"
      (tokenEndpoint exStore exSession 0 "tokA" "refA" exTokenReq).1 exStoreAfter rfl rfl rfl
      (by decide) [] exSession 1 "tokB" "refB" exTokenReq rfl rfl).2.1 exClient (by decide)
     (by decide) (by decide)⟩
